import Mathlib

/-!
Shallow embedding of the DiscordRecapBot core (src/bot.py and
src/data_handler.py).  Python floats (timestamps, durations) are modelled
as `Int`; CSV files are modelled as lists of structured lines (a header
line or a record line), JSONL journal files as lists of envelope records.
The filesystem is modelled as one partial map per file kind, `none`
meaning "file does not exist".  `src/main.py` is an earlier superseded
variant of the same logic and is not the subject of any claim.
-/

/-- A Discord guild as seen by the handlers: only `id` and `name` are read. -/
structure Guild where
  id : Nat
  name : String
deriving DecidableEq, Repr

/-- A Discord member: the handlers read `id`, `name` and `guild`. -/
structure Member where
  id : Nat
  name : String
  guild : Guild
deriving DecidableEq, Repr

/-- A voice channel: the handlers read `id` and `name`. -/
structure VoiceChannel where
  id : Nat
  name : String
deriving DecidableEq, Repr

/-- A guild channel as read by `on_guild_channel_update`: `ctype` stands for
the Python `channel.type.name` string. -/
structure GuildChannel where
  id : Nat
  name : String
  guild : Guild
  category_id : Option Nat
  ctype : String
deriving DecidableEq, Repr

/-- `class EventType(Enum)` in src/bot.py. -/
inductive EventType where
  | JOIN
  | LEAVE
deriving DecidableEq, Repr

/-- `EventType.value`: the string value of the enum member. -/
def EventType.value : EventType → String
  | .JOIN => "join"
  | .LEAVE => "leave"

/-- `class SessionType(Enum)` in src/bot.py. -/
inductive SessionType where
  | COMPLETE
  | CORRUPTED
deriving DecidableEq, Repr

/-- `SessionType.value`: the string value of the enum member. -/
def SessionType.value : SessionType → String
  | .COMPLETE => "complete"
  | .CORRUPTED => "corrupted"

/-- `class GuildEvent(enum.Enum)` in src/data_handler.py. -/
inductive GuildEvent where
  | CHANNEL_ADD
  | CHANNEL_REMOVE
  | CHANNEL_RENAME
  | MEMBER_JOIN
  | MEMBER_REMOVE
  | GUILD_RENAME
  | GUILD_JOIN_BOT
deriving DecidableEq, Repr

/-- `GuildEvent.value`: the string value of the enum member. -/
def GuildEvent.value : GuildEvent → String
  | .CHANNEL_ADD => "channel_add"
  | .CHANNEL_REMOVE => "channel_remove"
  | .CHANNEL_RENAME => "channel_rename"
  | .MEMBER_JOIN => "member_join"
  | .MEMBER_REMOVE => "member_remove"
  | .GUILD_RENAME => "guild_rename"
  | .GUILD_JOIN_BOT => "guild_join_bot"

/-- One data row of `event_log.csv`, field for field the f-string of
`DataHandler.log_event`. -/
structure EventRecord where
  member_id : Nat
  member_name : String
  timestamp : Int
  guild_id : Nat
  guild_name : String
  channel_id : Nat
  channel_name : String
  event_type : String
deriving DecidableEq, Repr

/-- One data row of `session_log.csv`, field for field the f-string of
`DataHandler.log_session`. -/
structure SessionRecord where
  member_id : Nat
  member_name : String
  start_time : Int
  duration : Int
  guild_id : Nat
  guild_name : String
  channel_id : Nat
  channel_name : String
  session_type : String
deriving DecidableEq, Repr

/-- A line of a CSV log file: the fixed header written by
`ensure_guild_files_exist`, or one appended record. -/
inductive EventLine where
  | header
  | record (r : EventRecord)
deriving DecidableEq, Repr

/-- A line of `session_log.csv`. -/
inductive SessionLine where
  | header
  | record (r : SessionRecord)
deriving DecidableEq, Repr

/-- A JSON scalar appearing in a guild-metadata payload (ints, strings, or
`None` for an absent category id). -/
inductive JsonVal where
  | jnum (n : Nat)
  | jstr (s : String)
  | jnull
deriving DecidableEq, Repr

/-- `channel_category_id` rendered into the payload: an id or JSON null. -/
def JsonVal.ofOptNat : Option Nat → JsonVal
  | none => .jnull
  | some n => .jnum n

/-- One line of `guild_events.jsonl`: the envelope dumped by
`DataHandler._append_guild_metadata`. -/
structure GuildMetadataEvent where
  schema_version : Nat
  timestamp : Int
  guild_event : String
  guild_id : Nat
  payload : List (String × JsonVal)
deriving DecidableEq, Repr

/-- `self.json_schema_version = 1` set in `DataHandler.__init__`; it is a
constant, never mutated. -/
def json_schema_version : Nat := 1

/-- The observable state of a `DataHandler` together with the filesystem it
writes: the memoization set `initialized_guilds_ids` and, per guild id, the
content of each of its four files (`none` = the file does not exist) and
whether the guild directory exists. -/
structure DHState where
  initialized_guilds_ids : List Nat
  dir_present : Nat → Bool
  eventLog : Nat → Option (List EventLine)
  sessionLog : Nat → Option (List SessionLine)
  guildEvents : Nat → Option (List GuildMetadataEvent)
  snapshot : Nat → Option (List String)

/-- Point update of a filesystem map. -/
def fset {α : Type} (f : Nat → α) (k : Nat) (v : α) : Nat → α :=
  fun x => if x = k then v else f x

/-- `DataHandler.ensure_guild_files_exist`.  Returns the new state and the
number of `os.path.exists` probes performed (0 on the memoized path, 5
otherwise: the guild directory, the two CSV logs, and the two files of the
final loop). -/
def DataHandler.ensure_guild_files_exist (st : DHState) (guild_id : Nat) : DHState × Nat :=
  if guild_id ∈ st.initialized_guilds_ids then
    (st, 0)
  else
    ({ initialized_guilds_ids := guild_id :: st.initialized_guilds_ids
       dir_present := if st.dir_present guild_id then st.dir_present
                      else fset st.dir_present guild_id true
       eventLog := if (st.eventLog guild_id).isSome then st.eventLog
                   else fset st.eventLog guild_id (some [EventLine.header])
       sessionLog := if (st.sessionLog guild_id).isSome then st.sessionLog
                     else fset st.sessionLog guild_id (some [SessionLine.header])
       guildEvents := if (st.guildEvents guild_id).isSome then st.guildEvents
                      else fset st.guildEvents guild_id (some [])
       snapshot := if (st.snapshot guild_id).isSome then st.snapshot
                   else fset st.snapshot guild_id (some []) }, 5)

/-- `DataHandler.log_event`: ensure the guild files, then append one CSV
line to `event_log.csv` (mode `'a'` creates the file when absent). -/
def DataHandler.log_event (st : DHState) (member_id : Nat) (member_name : String)
    (timestamp : Int) (guild_id : Nat) (guild_name : String) (channel_id : Nat)
    (channel_name : String) (event_type : String) : DHState :=
  let st1 := (DataHandler.ensure_guild_files_exist st guild_id).1
  let r : EventRecord :=
    ⟨member_id, member_name, timestamp, guild_id, guild_name, channel_id, channel_name, event_type⟩
  let newLog := fset st1.eventLog guild_id
    (some ((st1.eventLog guild_id).getD [] ++ [EventLine.record r]))
  { st1 with eventLog := newLog }

/-- `DataHandler.log_session`: ensure the guild files, then append one CSV
line to `session_log.csv`. -/
def DataHandler.log_session (st : DHState) (member_id : Nat) (member_name : String)
    (start_time : Int) (duration : Int) (guild_id : Nat) (guild_name : String)
    (channel_id : Nat) (channel_name : String) (session_type : String) : DHState :=
  let st1 := (DataHandler.ensure_guild_files_exist st guild_id).1
  let r : SessionRecord :=
    ⟨member_id, member_name, start_time, duration, guild_id, guild_name, channel_id,
      channel_name, session_type⟩
  let newLog := fset st1.sessionLog guild_id
    (some ((st1.sessionLog guild_id).getD [] ++ [SessionLine.record r]))
  { st1 with sessionLog := newLog }

/-- `DataHandler._append_guild_metadata`: ensure the guild files, then dump
the envelope `{schema_version, timestamp, guild_event, guild_id, payload}`
as one line of `guild_events.jsonl`. -/
def DataHandler.append_guild_metadata (st : DHState) (timestamp : Int) (guild_id : Nat)
    (guild_event_type : String) (payload : List (String × JsonVal)) : DHState :=
  let st1 := (DataHandler.ensure_guild_files_exist st guild_id).1
  let e : GuildMetadataEvent :=
    ⟨json_schema_version, timestamp, guild_event_type, guild_id, payload⟩
  let newLog := fset st1.guildEvents guild_id
    (some ((st1.guildEvents guild_id).getD [] ++ [e]))
  { st1 with guildEvents := newLog }

/-- `DataHandler.log_guild_channel_add`. -/
def DataHandler.log_guild_channel_add (st : DHState) (timestamp : Int) (guild_id : Nat)
    (channel_id : Nat) (channel_name : String) (channel_category_id : Option Nat)
    (channel_type : String) : DHState :=
  DataHandler.append_guild_metadata st timestamp guild_id GuildEvent.CHANNEL_ADD.value
    [("channel_id", .jnum channel_id), ("channel_name", .jstr channel_name),
     ("channel_category_id", .ofOptNat channel_category_id),
     ("channel_type", .jstr channel_type)]

/-- `DataHandler.log_guild_channel_remove`. -/
def DataHandler.log_guild_channel_remove (st : DHState) (timestamp : Int) (guild_id : Nat)
    (channel_id : Nat) (channel_name : String) (channel_category_id : Option Nat)
    (channel_type : String) : DHState :=
  DataHandler.append_guild_metadata st timestamp guild_id GuildEvent.CHANNEL_REMOVE.value
    [("channel_id", .jnum channel_id), ("channel_name", .jstr channel_name),
     ("channel_category_id", .ofOptNat channel_category_id),
     ("channel_type", .jstr channel_type)]

/-- `DataHandler.log_guild_channel_rename`. -/
def DataHandler.log_guild_channel_rename (st : DHState) (timestamp : Int) (guild_id : Nat)
    (channel_id : Nat) (channel_name_old : String) (channel_name_new : String)
    (channel_category_id : Option Nat) (channel_type : String) : DHState :=
  DataHandler.append_guild_metadata st timestamp guild_id GuildEvent.CHANNEL_RENAME.value
    [("channel_id", .jnum channel_id), ("channel_name_old", .jstr channel_name_old),
     ("channel_name_new", .jstr channel_name_new),
     ("channel_category_id", .ofOptNat channel_category_id),
     ("channel_type", .jstr channel_type)]

/-- `DataHandler.log_guild_member_join`. -/
def DataHandler.log_guild_member_join (st : DHState) (timestamp : Int) (guild_id : Nat)
    (member_id : Nat) (member_name : String) : DHState :=
  DataHandler.append_guild_metadata st timestamp guild_id GuildEvent.MEMBER_JOIN.value
    [("member_id", .jnum member_id), ("member_name", .jstr member_name)]

/-- `DataHandler.log_guild_member_remove`. -/
def DataHandler.log_guild_member_remove (st : DHState) (timestamp : Int) (guild_id : Nat)
    (member_id : Nat) (member_name : String) : DHState :=
  DataHandler.append_guild_metadata st timestamp guild_id GuildEvent.MEMBER_REMOVE.value
    [("member_id", .jnum member_id), ("member_name", .jstr member_name)]

/-- `DataHandler.log_guild_rename`. -/
def DataHandler.log_guild_rename (st : DHState) (timestamp : Int) (guild_id : Nat)
    (guild_name_old : String) (guild_name_new : String) : DHState :=
  DataHandler.append_guild_metadata st timestamp guild_id GuildEvent.GUILD_RENAME.value
    [("guild_name_old", .jstr guild_name_old), ("guild_name_new", .jstr guild_name_new)]

/-- `DataHandler.log_guild_bot_join`. -/
def DataHandler.log_guild_bot_join (st : DHState) (timestamp : Int) (guild_id : Nat)
    (guild_name : String) : DHState :=
  DataHandler.append_guild_metadata st timestamp guild_id GuildEvent.GUILD_JOIN_BOT.value
    [("guild_name", .jstr guild_name)]

/-- The connection dict stored per key in
`RecapBot.currently_tracked_connections` (`handle_voice_join`). -/
structure Connection where
  member_name : String
  timestamp : Int
  guild_name : String
  channel_name : String
  channel_id : Nat
deriving DecidableEq, Repr

/-- The key of the tracking dict: `(member.id, guild.id)`. -/
abbrev TrackKey := Nat × Nat

/-- Python dict lookup (`d[k]` / `k in d`), on the association-list model of
`currently_tracked_connections`. -/
def dictLookup : List (TrackKey × Connection) → TrackKey → Option Connection
  | [], _ => none
  | p :: rest, k => if p.1 = k then some p.2 else dictLookup rest k

/-- Removal of a key (`d.pop(k)` discarding the value). -/
def dictErase : List (TrackKey × Connection) → TrackKey → List (TrackKey × Connection)
  | [], _ => []
  | p :: rest, k => if p.1 = k then dictErase rest k else p :: dictErase rest k

/-- Python dict assignment `d[k] = v`: the mapping afterwards sends `k` to
`v` and every other key to its previous value (entry order, which the code
never observes, is not modelled). -/
def dictInsert (d : List (TrackKey × Connection)) (k : TrackKey) (v : Connection) :
    List (TrackKey × Connection) :=
  (k, v) :: dictErase d k

/-- Number of live entries stored for a key. -/
def countKey : List (TrackKey × Connection) → TrackKey → Nat
  | [], _ => 0
  | p :: rest, k => (if p.1 = k then 1 else 0) + countKey rest k

/-- The mutable state of a `RecapBot`: the tracking dict plus the
`DataHandler` it owns. -/
structure BotState where
  currently_tracked_connections : List (TrackKey × Connection)
  data_handler : DHState

/-- `before.channel == after.channel` in Python: discord channels compare
equal by id, `None == None` is true, `None` never equals a channel. -/
def chanEq : Option VoiceChannel → Option VoiceChannel → Bool
  | none, none => true
  | some a, some b => a.id == b.id
  | _, _ => false

/-- `RecapBot.handle_voice_join`: store the connection dict for
`(member.id, guild.id)`, overwriting any existing entry. -/
def RecapBot.handle_voice_join (st : BotState) (member : Member) (timestamp : Int)
    (voice_channel : VoiceChannel) : BotState :=
  let guild := member.guild
  let connection : Connection :=
    ⟨member.name, timestamp, guild.name, voice_channel.name, voice_channel.id⟩
  { st with currently_tracked_connections :=
      dictInsert st.currently_tracked_connections (member.id, guild.id) connection }

/-- `RecapBot.handle_voice_leave`: pop the tracked entry if present and log a
`complete` session from its captured values, else log a `corrupted` session
(`start_time = -1`, `duration = 0`) from the live member/guild/channel. -/
def RecapBot.handle_voice_leave (st : BotState) (member : Member) (timestamp : Int)
    (voice_channel : VoiceChannel) : BotState :=
  let member_id := member.id
  let guild := member.guild
  let guild_id := guild.id
  match dictLookup st.currently_tracked_connections (member_id, guild_id) with
  | some tracked_connection =>
      let remaining := dictErase st.currently_tracked_connections (member_id, guild_id)
      let dh := DataHandler.log_session st.data_handler member_id
        tracked_connection.member_name tracked_connection.timestamp
        (timestamp - tracked_connection.timestamp) guild_id tracked_connection.guild_name
        tracked_connection.channel_id tracked_connection.channel_name
        SessionType.COMPLETE.value
      ⟨remaining, dh⟩
  | none =>
      let dh := DataHandler.log_session st.data_handler member_id member.name (-1) 0
        guild_id guild.name voice_channel.id voice_channel.name SessionType.CORRUPTED.value
      { st with data_handler := dh }

/-- `RecapBot.on_voice_state_update`, with the `time.time()` wall clock passed
in as `timestamp`.  The `none, none` branch is unreachable because
`chanEq none none = true`. -/
def RecapBot.on_voice_state_update (st : BotState) (member : Member)
    (before after : Option VoiceChannel) (timestamp : Int) : BotState :=
  if chanEq before after then st
  else
    let guild := member.guild
    match before, after with
    | none, some channel_after =>
        let dh1 := DataHandler.log_event st.data_handler member.id member.name timestamp
          guild.id guild.name channel_after.id channel_after.name EventType.JOIN.value
        let st1 := { st with data_handler := dh1 }
        RecapBot.handle_voice_join st1 member timestamp channel_after
    | some channel_before, none =>
        let dh1 := DataHandler.log_event st.data_handler member.id member.name timestamp
          guild.id guild.name channel_before.id channel_before.name EventType.LEAVE.value
        let st1 := { st with data_handler := dh1 }
        RecapBot.handle_voice_leave st1 member timestamp channel_before
    | some channel_before, some channel_after =>
        let dh1 := DataHandler.log_event st.data_handler member.id member.name timestamp
          guild.id guild.name channel_before.id channel_before.name EventType.LEAVE.value
        let st1 := { st with data_handler := dh1 }
        let dh2 := DataHandler.log_event st1.data_handler member.id member.name timestamp
          guild.id guild.name channel_after.id channel_after.name EventType.JOIN.value
        let st2 := { st1 with data_handler := dh2 }
        let st3 := RecapBot.handle_voice_leave st2 member timestamp channel_before
        RecapBot.handle_voice_join st3 member timestamp channel_after
    | none, none => st

/-- `RecapBot.on_ready`: ensure the file set of every guild the bot is in. -/
def RecapBot.on_ready (st : BotState) (guilds : List Guild) : BotState :=
  let dh := guilds.foldl
    (fun dh guild => (DataHandler.ensure_guild_files_exist dh guild.id).1) st.data_handler
  { st with data_handler := dh }

/-- `RecapBot.on_guild_join`: ensure the new guild's file set, then record the
bot-join metadata event. -/
def RecapBot.on_guild_join (st : BotState) (guild : Guild) (timestamp : Int) : BotState :=
  let dh1 := (DataHandler.ensure_guild_files_exist st.data_handler guild.id).1
  { st with data_handler := DataHandler.log_guild_bot_join dh1 timestamp guild.id guild.name }

/-- `RecapBot.on_guild_channel_update`.  The category-change branch calls
`self.data_handler.log_guild_channel_category_change`, a method the
`DataHandler` class does not define; at runtime Python raises
`AttributeError` there, after any rename record was already written.  The
raised error is modelled as the `Option String` component, alongside the
state as mutated up to the point of failure. -/
def RecapBot.on_guild_channel_update (st : BotState) (before after : GuildChannel)
    (timestamp : Int) : BotState × Option String :=
  let category_before_id := before.category_id
  let category_after_id := after.category_id
  let dh1 := DataHandler.log_guild_channel_rename st.data_handler timestamp before.guild.id
    before.id before.name after.name category_before_id before.ctype
  let st1 :=
    if before.name ≠ after.name then { st with data_handler := dh1 }
    else st
  if category_before_id ≠ category_after_id then
    (st1, some "AttributeError: DataHandler object has no attribute log_guild_channel_category_change")
  else
    (st1, none)

/-- The data rows of a guild's `event_log.csv` (header lines dropped); the
empty list when the file does not exist. -/
def dhEvents (dh : DHState) (g : Nat) : List EventRecord :=
  ((dh.eventLog g).getD []).filterMap fun l =>
    match l with
    | .header => none
    | .record r => some r

/-- The data rows of a guild's `session_log.csv`. -/
def dhSessions (dh : DHState) (g : Nat) : List SessionRecord :=
  ((dh.sessionLog g).getD []).filterMap fun l =>
    match l with
    | .header => none
    | .record r => some r

/-- The lines of a guild's `guild_events.jsonl` journal; the empty list when
the file does not exist. -/
def journalOf (dh : DHState) (g : Nat) : List GuildMetadataEvent :=
  (dh.guildEvents g).getD []

/-- Event rows of a guild, read off a bot state. -/
def eventsOf (st : BotState) (g : Nat) : List EventRecord :=
  dhEvents st.data_handler g

/-- Session rows of a guild, read off a bot state. -/
def sessionsOf (st : BotState) (g : Nat) : List SessionRecord :=
  dhSessions st.data_handler g

/-- One raw voice-state change as delivered by the gateway: the member, the
previous and new channel, and the wall-clock instant of delivery. -/
structure VSUpdate where
  member : Member
  before : Option VoiceChannel
  after : Option VoiceChannel
  timestamp : Int
deriving DecidableEq, Repr

/-- The tracking key `(member.id, guild.id)` touched by an update. -/
def VSUpdate.key (u : VSUpdate) : TrackKey := (u.member.id, u.member.guild.id)

/-- Process one voice-state update. -/
def step (st : BotState) (u : VSUpdate) : BotState :=
  RecapBot.on_voice_state_update st u.member u.before u.after u.timestamp

/-- Process a list of voice-state updates in delivery order. -/
def runUpdates (st : BotState) (us : List VSUpdate) : BotState :=
  us.foldl step st

/-- `ensure_guild_files_exist` called `n` times in a row for the same guild. -/
def ensureIter (dh : DHState) (g : Nat) : Nat → DHState
  | 0 => dh
  | n + 1 => (DataHandler.ensure_guild_files_exist (ensureIter dh g n) g).1

/-- One call to a `GuildEventRecorder` logging method, with its arguments. -/
inductive GuildCall where
  | channel_add (timestamp : Int) (guild_id channel_id : Nat) (channel_name : String)
      (category_id : Option Nat) (channel_type : String)
  | channel_remove (timestamp : Int) (guild_id channel_id : Nat) (channel_name : String)
      (category_id : Option Nat) (channel_type : String)
  | channel_rename (timestamp : Int) (guild_id channel_id : Nat)
      (name_old name_new : String) (category_id : Option Nat) (channel_type : String)
  | member_join (timestamp : Int) (guild_id member_id : Nat) (member_name : String)
  | member_remove (timestamp : Int) (guild_id member_id : Nat) (member_name : String)
  | guild_rename (timestamp : Int) (guild_id : Nat) (name_old name_new : String)
  | bot_join (timestamp : Int) (guild_id : Nat) (guild_name : String)
deriving DecidableEq, Repr

/-- Dispatch a `GuildCall` to the corresponding `DataHandler` method. -/
def GuildCall.apply (dh : DHState) : GuildCall → DHState
  | .channel_add t g c n cat ty => DataHandler.log_guild_channel_add dh t g c n cat ty
  | .channel_remove t g c n cat ty => DataHandler.log_guild_channel_remove dh t g c n cat ty
  | .channel_rename t g c old new cat ty =>
      DataHandler.log_guild_channel_rename dh t g c old new cat ty
  | .member_join t g m n => DataHandler.log_guild_member_join dh t g m n
  | .member_remove t g m n => DataHandler.log_guild_member_remove dh t g m n
  | .guild_rename t g old new => DataHandler.log_guild_rename dh t g old new
  | .bot_join t g n => DataHandler.log_guild_bot_join dh t g n

/-- The guild id a call targets. -/
def GuildCall.guild : GuildCall → Nat
  | .channel_add _ g _ _ _ _ => g
  | .channel_remove _ g _ _ _ _ => g
  | .channel_rename _ g _ _ _ _ _ => g
  | .member_join _ g _ _ => g
  | .member_remove _ g _ _ => g
  | .guild_rename _ g _ _ => g
  | .bot_join _ g _ => g

/-- The timestamp supplied with a call. -/
def GuildCall.ts : GuildCall → Int
  | .channel_add t _ _ _ _ _ => t
  | .channel_remove t _ _ _ _ _ => t
  | .channel_rename t _ _ _ _ _ _ => t
  | .member_join t _ _ _ => t
  | .member_remove t _ _ _ => t
  | .guild_rename t _ _ _ => t
  | .bot_join t _ _ => t

/-- The journal envelope a call is specified to append (spec §4.2/§6): the
schema-version constant 1, the supplied timestamp, the kind's `guild_event`
tag, the guild id, and the kind-specific payload map.  This definition
follows the spec's words; the C5 theorem proves the code appends exactly
this envelope. -/
def GuildCall.specEnvelope : GuildCall → GuildMetadataEvent
  | .channel_add t g c n cat ty =>
      ⟨1, t, "channel_add",
        g, [("channel_id", .jnum c), ("channel_name", .jstr n),
            ("channel_category_id", .ofOptNat cat), ("channel_type", .jstr ty)]⟩
  | .channel_remove t g c n cat ty =>
      ⟨1, t, "channel_remove",
        g, [("channel_id", .jnum c), ("channel_name", .jstr n),
            ("channel_category_id", .ofOptNat cat), ("channel_type", .jstr ty)]⟩
  | .channel_rename t g c old new cat ty =>
      ⟨1, t, "channel_rename",
        g, [("channel_id", .jnum c), ("channel_name_old", .jstr old),
            ("channel_name_new", .jstr new), ("channel_category_id", .ofOptNat cat),
            ("channel_type", .jstr ty)]⟩
  | .member_join t g m n =>
      ⟨1, t, "member_join", g, [("member_id", .jnum m), ("member_name", .jstr n)]⟩
  | .member_remove t g m n =>
      ⟨1, t, "member_remove", g, [("member_id", .jnum m), ("member_name", .jstr n)]⟩
  | .guild_rename t g old new =>
      ⟨1, t, "guild_rename", g, [("guild_name_old", .jstr old), ("guild_name_new", .jstr new)]⟩
  | .bot_join t g n =>
      ⟨1, t, "guild_join_bot", g, [("guild_name", .jstr n)]⟩

/-- Apply a sequence of recorder calls in order. -/
def applyCalls (dh : DHState) (cs : List GuildCall) : DHState :=
  cs.foldl GuildCall.apply dh

/-- A guild's full file set exists on disk. -/
def FilesReady (dh : DHState) (g : Nat) : Prop :=
  dh.dir_present g = true ∧ (dh.eventLog g).isSome = true ∧
    (dh.sessionLog g).isSome = true ∧ (dh.guildEvents g).isSome = true ∧
    (dh.snapshot g).isSome = true

instance (dh : DHState) (g : Nat) : Decidable (FilesReady dh g) := by
  unfold FilesReady; infer_instance

/-- Well-formedness tying the memoization set to the filesystem: every guild
recorded as initialized really has its file set.  `ensure_guild_files_exist`
establishes it for the guild it is called on and every operation preserves
it. -/
def dhWF (dh : DHState) : Prop :=
  ∀ g ∈ dh.initialized_guilds_ids, FilesReady dh g

instance (dh : DHState) : Decidable (dhWF dh) := by
  unfold dhWF; infer_instance

/-- The empty filesystem and a fresh `DataHandler`, as after `__init__` on a
fresh data directory. -/
def dh0 : DHState :=
  ⟨[], fun _ => false, fun _ => none, fun _ => none, fun _ => none, fun _ => none⟩

/-- A fresh bot: no tracked connections, fresh handler. -/
def bot0 : BotState := ⟨[], dh0⟩

/-- Sample guild for concrete evaluations. -/
def guildA : Guild := ⟨10, "GuildA"⟩

/-- Sample member of `guildA`. -/
def memberM : Member := ⟨1, "M", guildA⟩

/-- Sample voice channel. -/
def chanA : VoiceChannel := ⟨100, "A"⟩

/-- Another sample voice channel. -/
def chanB : VoiceChannel := ⟨200, "B"⟩

/-- Sample guild channel before a pure recategorization. -/
def chanX : GuildChannel := ⟨300, "general", guildA, some 5, "voice"⟩

/-- The same channel moved to another category (same name, new category id). -/
def chanY : GuildChannel := ⟨300, "general", guildA, some 6, "voice"⟩

theorem fset_same {α : Type} (f : Nat → α) (k : Nat) (v : α) : fset f k v k = v := by
  simp [fset]

theorem fset_other {α : Type} (f : Nat → α) (k k' : Nat) (v : α) (h : k' ≠ k) :
    fset f k v k' = f k' := by
  simp [fset, h]

theorem fsetIf_some {α : Type} (f : Nat → Option α) (g g' : Nat) (w : Option α) (l : α)
    (h : f g' = some l) :
    (if (f g).isSome = true then f else fset f g w) g' = some l := by
  by_cases hs : (f g).isSome = true
  · simp [hs, h]
  · by_cases hg : g' = g
    · subst hg; rw [h] at hs; simp at hs
    · simp [hs, fset, hg, h]

theorem fsetIf_isSome {α : Type} (f : Nat → Option α) (g g' : Nat) (w : α)
    (h : (f g').isSome = true) :
    ((if (f g).isSome = true then f else fset f g (some w)) g').isSome = true := by
  by_cases hs : (f g).isSome = true
  · simp [hs, h]
  · by_cases hg : g' = g
    · subst hg; exact absurd h hs
    · simp [hs, fset, hg, h]

theorem fsetIf_isSome_self {α : Type} (f : Nat → Option α) (g : Nat) (w : α) :
    ((if (f g).isSome = true then f else fset f g (some w)) g).isSome = true := by
  by_cases hs : (f g).isSome = true
  · simp [hs]
  · simp [hs, fset]

theorem fsetIf_obs {α β : Type} (f : Nat → Option (List α)) (g g' : Nat) (w : List α)
    (fn : α → Option β) (hw : w.filterMap fn = []) :
    (((if (f g).isSome = true then f else fset f g (some w)) g').getD []).filterMap fn
      = ((f g').getD []).filterMap fn := by
  by_cases hs : (f g).isSome = true
  · simp [hs]
  · by_cases hg : g' = g
    · subst hg
      have hn : f g' = none := by
        cases hfg : f g' with
        | none => rfl
        | some l => rw [hfg] at hs; simp at hs
      simp [hs, fset, hn, hw]
    · simp [hs, fset, hg]

theorem fsetIf_getD_nil {α : Type} (f : Nat → Option (List α)) (g g' : Nat) :
    ((if (f g).isSome = true then f else fset f g (some [])) g').getD []
      = (f g').getD [] := by
  by_cases hs : (f g).isSome = true
  · simp [hs]
  · by_cases hg : g' = g
    · subst hg
      have hn : f g' = none := by
        cases hfg : f g' with
        | none => rfl
        | some l => rw [hfg] at hs; simp at hs
      simp [hs, fset, hn]
    · simp [hs, fset, hg]

theorem fsetIfBool_true {f : Nat → Bool} {g g' : Nat}
    (h : f g' = true) :
    (if f g = true then f else fset f g true) g' = true := by
  by_cases hs : f g = true
  · simp [hs, h]
  · by_cases hg : g' = g
    · subst hg; exact absurd h hs
    · simp [hs, fset, hg, h]

theorem fsetIfBool_self (f : Nat → Bool) (g : Nat) :
    (if f g = true then f else fset f g true) g = true := by
  by_cases hs : f g = true
  · simp [hs]
  · simp [hs, fset]

theorem dictLookup_insert_self (d : List (TrackKey × Connection)) (k : TrackKey)
    (v : Connection) : dictLookup (dictInsert d k v) k = some v := by
  simp [dictInsert, dictLookup]

theorem dictLookup_erase_ne (d : List (TrackKey × Connection)) (k k' : TrackKey)
    (h : k' ≠ k) : dictLookup (dictErase d k) k' = dictLookup d k' := by
  induction d with
  | nil => rfl
  | cons p rest ih =>
      by_cases hp : p.1 = k
      · simp [dictErase, dictLookup, hp, Ne.symm h, ih]
      · by_cases hp' : p.1 = k'
        · simp [dictErase, dictLookup, hp, hp', h, ih]
        · simp [dictErase, dictLookup, hp, hp', ih]

theorem dictLookup_erase_self (d : List (TrackKey × Connection)) (k : TrackKey) :
    dictLookup (dictErase d k) k = none := by
  induction d with
  | nil => rfl
  | cons p rest ih =>
      by_cases hp : p.1 = k
      · simp [dictErase, hp, ih]
      · simp [dictErase, dictLookup, hp, ih]

theorem dictLookup_insert_ne (d : List (TrackKey × Connection)) (k k' : TrackKey)
    (v : Connection) (h : k' ≠ k) :
    dictLookup (dictInsert d k v) k' = dictLookup d k' := by
  simp [dictInsert, dictLookup, Ne.symm h, dictLookup_erase_ne d k k' h]

theorem countKey_erase_self (d : List (TrackKey × Connection)) (k : TrackKey) :
    countKey (dictErase d k) k = 0 := by
  induction d with
  | nil => rfl
  | cons p rest ih =>
      by_cases hp : p.1 = k
      · simp [dictErase, hp, ih]
      · simp [dictErase, countKey, hp, ih]

theorem countKey_erase_ne (d : List (TrackKey × Connection)) (k k' : TrackKey)
    (h : k' ≠ k) : countKey (dictErase d k) k' = countKey d k' := by
  induction d with
  | nil => rfl
  | cons p rest ih =>
      by_cases hp : p.1 = k
      · simp [dictErase, countKey, hp, Ne.symm h, ih]
      · simp [dictErase, countKey, hp, ih]

theorem countKey_insert_self (d : List (TrackKey × Connection)) (k : TrackKey)
    (v : Connection) : countKey (dictInsert d k v) k = 1 := by
  simp [dictInsert, countKey, countKey_erase_self]

theorem countKey_insert_ne (d : List (TrackKey × Connection)) (k k' : TrackKey)
    (v : Connection) (h : k' ≠ k) :
    countKey (dictInsert d k v) k' = countKey d k' := by
  simp [dictInsert, countKey, Ne.symm h, countKey_erase_ne d k k' h]

theorem countKey_erase_le (d : List (TrackKey × Connection)) (k k' : TrackKey) :
    countKey (dictErase d k) k' ≤ countKey d k' := by
  induction d with
  | nil => exact Nat.le_refl 0
  | cons p rest ih =>
      by_cases hp : p.1 = k
      · simp only [dictErase, hp, if_true, countKey]
        exact le_trans ih (Nat.le_add_left _ _)
      · simp only [dictErase, hp, if_false, countKey]
        exact Nat.add_le_add_left ih _

theorem ensure_of_mem (st : DHState) (g : Nat) (h : g ∈ st.initialized_guilds_ids) :
    DataHandler.ensure_guild_files_exist st g = (st, 0) := by
  unfold DataHandler.ensure_guild_files_exist
  simp [h]

theorem ensure_mem_initialized (st : DHState) (g : Nat) :
    g ∈ ((DataHandler.ensure_guild_files_exist st g).1).initialized_guilds_ids := by
  unfold DataHandler.ensure_guild_files_exist
  by_cases hmem : g ∈ st.initialized_guilds_ids
  · simp [hmem]
  · simp [hmem]

theorem ensure_init_mem_iff (st : DHState) (g g' : Nat) :
    g' ∈ ((DataHandler.ensure_guild_files_exist st g).1).initialized_guilds_ids ↔
      g' = g ∨ g' ∈ st.initialized_guilds_ids := by
  unfold DataHandler.ensure_guild_files_exist
  by_cases hmem : g ∈ st.initialized_guilds_ids
  · simp only [hmem, if_true]
    constructor
    · exact Or.inr
    · rintro (rfl | h)
      · exact hmem
      · exact h
  · simp [hmem, List.mem_cons]

theorem ensure_eventLog_some (st : DHState) (g g' : Nat) (l : List EventLine)
    (h : st.eventLog g' = some l) :
    ((DataHandler.ensure_guild_files_exist st g).1).eventLog g' = some l := by
  unfold DataHandler.ensure_guild_files_exist
  by_cases hmem : g ∈ st.initialized_guilds_ids
  · simp [hmem, h]
  · simpa [hmem] using fsetIf_some st.eventLog g g' _ l h

theorem ensure_sessionLog_some (st : DHState) (g g' : Nat) (l : List SessionLine)
    (h : st.sessionLog g' = some l) :
    ((DataHandler.ensure_guild_files_exist st g).1).sessionLog g' = some l := by
  unfold DataHandler.ensure_guild_files_exist
  by_cases hmem : g ∈ st.initialized_guilds_ids
  · simp [hmem, h]
  · simpa [hmem] using fsetIf_some st.sessionLog g g' _ l h

theorem ensure_guildEvents_some (st : DHState) (g g' : Nat) (l : List GuildMetadataEvent)
    (h : st.guildEvents g' = some l) :
    ((DataHandler.ensure_guild_files_exist st g).1).guildEvents g' = some l := by
  unfold DataHandler.ensure_guild_files_exist
  by_cases hmem : g ∈ st.initialized_guilds_ids
  · simp [hmem, h]
  · simpa [hmem] using fsetIf_some st.guildEvents g g' _ l h

theorem ensure_snapshot_some (st : DHState) (g g' : Nat) (l : List String)
    (h : st.snapshot g' = some l) :
    ((DataHandler.ensure_guild_files_exist st g).1).snapshot g' = some l := by
  unfold DataHandler.ensure_guild_files_exist
  by_cases hmem : g ∈ st.initialized_guilds_ids
  · simp [hmem, h]
  · simpa [hmem] using fsetIf_some st.snapshot g g' _ l h

theorem ensure_filesReady (st : DHState) (g : Nat)
    (h : g ∈ st.initialized_guilds_ids → FilesReady st g) :
    FilesReady ((DataHandler.ensure_guild_files_exist st g).1) g := by
  by_cases hmem : g ∈ st.initialized_guilds_ids
  · rw [ensure_of_mem st g hmem]
    exact h hmem
  · unfold DataHandler.ensure_guild_files_exist
    simp only [hmem, if_false]
    exact ⟨fsetIfBool_self st.dir_present g, fsetIf_isSome_self st.eventLog g _,
      fsetIf_isSome_self st.sessionLog g _, fsetIf_isSome_self st.guildEvents g _,
      fsetIf_isSome_self st.snapshot g _⟩

theorem ensure_filesReady_mono (st : DHState) (g g' : Nat) (h : FilesReady st g') :
    FilesReady ((DataHandler.ensure_guild_files_exist st g).1) g' := by
  obtain ⟨h1, h2, h3, h4, h5⟩ := h
  unfold DataHandler.ensure_guild_files_exist
  by_cases hmem : g ∈ st.initialized_guilds_ids
  · exact ⟨by simp [hmem, h1], by simp [hmem, h2], by simp [hmem, h3],
      by simp [hmem, h4], by simp [hmem, h5]⟩
  · simp only [hmem, if_false]
    exact ⟨fsetIfBool_true h1, fsetIf_isSome st.eventLog g g' _ h2,
      fsetIf_isSome st.sessionLog g g' _ h3, fsetIf_isSome st.guildEvents g g' _ h4,
      fsetIf_isSome st.snapshot g g' _ h5⟩

theorem ensure_WF (st : DHState) (g : Nat) (h : dhWF st) :
    dhWF ((DataHandler.ensure_guild_files_exist st g).1) := by
  intro g' hg'
  rcases (ensure_init_mem_iff st g g').mp hg' with rfl | hmem'
  · exact ensure_filesReady st g' (fun hm => h g' hm)
  · exact ensure_filesReady_mono st g g' (h g' hmem')

theorem dhEvents_ensure (st : DHState) (g g' : Nat) :
    dhEvents ((DataHandler.ensure_guild_files_exist st g).1) g' = dhEvents st g' := by
  unfold DataHandler.ensure_guild_files_exist dhEvents
  by_cases hmem : g ∈ st.initialized_guilds_ids
  · simp [hmem]
  · simpa [hmem] using fsetIf_obs st.eventLog g g' [EventLine.header] _ (by rfl)

theorem dhSessions_ensure (st : DHState) (g g' : Nat) :
    dhSessions ((DataHandler.ensure_guild_files_exist st g).1) g' = dhSessions st g' := by
  unfold DataHandler.ensure_guild_files_exist dhSessions
  by_cases hmem : g ∈ st.initialized_guilds_ids
  · simp [hmem]
  · simpa [hmem] using fsetIf_obs st.sessionLog g g' [SessionLine.header] _ (by rfl)

theorem journalOf_ensure (st : DHState) (g g' : Nat) :
    journalOf ((DataHandler.ensure_guild_files_exist st g).1) g' = journalOf st g' := by
  unfold DataHandler.ensure_guild_files_exist journalOf
  by_cases hmem : g ∈ st.initialized_guilds_ids
  · simp [hmem]
  · simpa [hmem] using fsetIf_getD_nil st.guildEvents g g'

theorem dhEvents_log_event (dh : DHState) (mi : Nat) (mn : String) (ts : Int) (g : Nat)
    (gn : String) (ci : Nat) (cn : String) (et : String) :
    dhEvents (DataHandler.log_event dh mi mn ts g gn ci cn et) g
      = dhEvents dh g ++ [⟨mi, mn, ts, g, gn, ci, cn, et⟩] := by
  have h1 := dhEvents_ensure dh g g
  unfold DataHandler.log_event
  simp only [dhEvents, fset_same, Option.getD_some, List.filterMap_append] at h1 ⊢
  rw [h1]
  rfl

theorem dhSessions_log_event (dh : DHState) (mi : Nat) (mn : String) (ts : Int) (g : Nat)
    (gn : String) (ci : Nat) (cn : String) (et : String) (g' : Nat) :
    dhSessions (DataHandler.log_event dh mi mn ts g gn ci cn et) g'
      = dhSessions dh g' := by
  have h1 := dhSessions_ensure dh g g'
  unfold DataHandler.log_event
  simpa using h1

theorem journalOf_log_event (dh : DHState) (mi : Nat) (mn : String) (ts : Int) (g : Nat)
    (gn : String) (ci : Nat) (cn : String) (et : String) (g' : Nat) :
    journalOf (DataHandler.log_event dh mi mn ts g gn ci cn et) g'
      = journalOf dh g' := by
  have h1 := journalOf_ensure dh g g'
  unfold DataHandler.log_event
  simpa using h1

theorem dhSessions_log_session (dh : DHState) (mi : Nat) (mn : String) (ts du : Int)
    (g : Nat) (gn : String) (ci : Nat) (cn : String) (sty : String) :
    dhSessions (DataHandler.log_session dh mi mn ts du g gn ci cn sty) g
      = dhSessions dh g ++ [⟨mi, mn, ts, du, g, gn, ci, cn, sty⟩] := by
  have h1 := dhSessions_ensure dh g g
  unfold DataHandler.log_session
  simp only [dhSessions, fset_same, Option.getD_some, List.filterMap_append] at h1 ⊢
  rw [h1]
  rfl

theorem dhEvents_log_session (dh : DHState) (mi : Nat) (mn : String) (ts du : Int)
    (g : Nat) (gn : String) (ci : Nat) (cn : String) (sty : String) (g' : Nat) :
    dhEvents (DataHandler.log_session dh mi mn ts du g gn ci cn sty) g'
      = dhEvents dh g' := by
  have h1 := dhEvents_ensure dh g g'
  unfold DataHandler.log_session
  simpa using h1

theorem journalOf_log_session (dh : DHState) (mi : Nat) (mn : String) (ts du : Int)
    (g : Nat) (gn : String) (ci : Nat) (cn : String) (sty : String) (g' : Nat) :
    journalOf (DataHandler.log_session dh mi mn ts du g gn ci cn sty) g'
      = journalOf dh g' := by
  have h1 := journalOf_ensure dh g g'
  unfold DataHandler.log_session
  simpa using h1

theorem journalOf_append_guild_metadata (dh : DHState) (ts : Int) (g : Nat) (tag : String)
    (payload : List (String × JsonVal)) :
    journalOf (DataHandler.append_guild_metadata dh ts g tag payload) g
      = journalOf dh g ++ [⟨json_schema_version, ts, tag, g, payload⟩] := by
  have h1 := journalOf_ensure dh g g
  unfold DataHandler.append_guild_metadata
  simp only [journalOf, fset_same, Option.getD_some] at h1 ⊢
  rw [h1]

theorem dhSessions_append_guild_metadata (dh : DHState) (ts : Int) (g : Nat) (tag : String)
    (payload : List (String × JsonVal)) (g' : Nat) :
    dhSessions (DataHandler.append_guild_metadata dh ts g tag payload) g'
      = dhSessions dh g' := by
  have h1 := dhSessions_ensure dh g g'
  unfold DataHandler.append_guild_metadata
  simpa using h1

theorem dhEvents_append_guild_metadata (dh : DHState) (ts : Int) (g : Nat) (tag : String)
    (payload : List (String × JsonVal)) (g' : Nat) :
    dhEvents (DataHandler.append_guild_metadata dh ts g tag payload) g'
      = dhEvents dh g' := by
  have h1 := dhEvents_ensure dh g g'
  unfold DataHandler.append_guild_metadata
  simpa using h1

theorem log_event_mem_init (dh : DHState) (mi : Nat) (mn : String) (ts : Int) (g : Nat)
    (gn : String) (ci : Nat) (cn : String) (et : String) :
    g ∈ (DataHandler.log_event dh mi mn ts g gn ci cn et).initialized_guilds_ids := by
  unfold DataHandler.log_event
  simpa using ensure_mem_initialized dh g

theorem log_session_mem_init (dh : DHState) (mi : Nat) (mn : String) (ts du : Int)
    (g : Nat) (gn : String) (ci : Nat) (cn : String) (sty : String) :
    g ∈ (DataHandler.log_session dh mi mn ts du g gn ci cn sty).initialized_guilds_ids := by
  unfold DataHandler.log_session
  simpa using ensure_mem_initialized dh g

theorem append_guild_metadata_mem_init (dh : DHState) (ts : Int) (g : Nat) (tag : String)
    (payload : List (String × JsonVal)) :
    g ∈ (DataHandler.append_guild_metadata dh ts g tag payload).initialized_guilds_ids := by
  unfold DataHandler.append_guild_metadata
  simpa using ensure_mem_initialized dh g

theorem filesReady_log_event (dh : DHState) (mi : Nat) (mn : String) (ts : Int) (g : Nat)
    (gn : String) (ci : Nat) (cn : String) (et : String)
    (h : g ∈ dh.initialized_guilds_ids → FilesReady dh g) :
    FilesReady (DataHandler.log_event dh mi mn ts g gn ci cn et) g := by
  obtain ⟨d1, d2, d3, d4, d5⟩ := ensure_filesReady dh g h
  unfold DataHandler.log_event
  exact ⟨by simpa using d1, by simp [fset_same], by simpa using d3,
    by simpa using d4, by simpa using d5⟩

theorem filesReady_log_session (dh : DHState) (mi : Nat) (mn : String) (ts du : Int)
    (g : Nat) (gn : String) (ci : Nat) (cn : String) (sty : String)
    (h : g ∈ dh.initialized_guilds_ids → FilesReady dh g) :
    FilesReady (DataHandler.log_session dh mi mn ts du g gn ci cn sty) g := by
  obtain ⟨d1, d2, d3, d4, d5⟩ := ensure_filesReady dh g h
  unfold DataHandler.log_session
  exact ⟨by simpa using d1, by simpa using d2, by simp [fset_same],
    by simpa using d4, by simpa using d5⟩

theorem filesReady_append_guild_metadata (dh : DHState) (ts : Int) (g : Nat) (tag : String)
    (payload : List (String × JsonVal))
    (h : g ∈ dh.initialized_guilds_ids → FilesReady dh g) :
    FilesReady (DataHandler.append_guild_metadata dh ts g tag payload) g := by
  obtain ⟨d1, d2, d3, d4, d5⟩ := ensure_filesReady dh g h
  unfold DataHandler.append_guild_metadata
  exact ⟨by simpa using d1, by simpa using d2, by simpa using d3,
    by simp [fset_same], by simpa using d5⟩

theorem filesReady_append_guild_metadata_mono (dh : DHState) (ts : Int) (g : Nat)
    (tag : String) (payload : List (String × JsonVal)) (g' : Nat)
    (h : FilesReady dh g') :
    FilesReady (DataHandler.append_guild_metadata dh ts g tag payload) g' := by
  obtain ⟨d1, d2, d3, d4, d5⟩ := ensure_filesReady_mono dh g g' h
  unfold DataHandler.append_guild_metadata
  by_cases hg : g' = g
  · subst hg
    exact ⟨by simpa using d1, by simpa using d2, by simpa using d3,
      by simp [fset_same], by simpa using d5⟩
  · exact ⟨by simpa using d1, by simpa using d2, by simpa using d3,
      by simpa [fset_other _ _ _ _ hg] using d4, by simpa using d5⟩

theorem append_guild_metadata_init_mono (dh : DHState) (ts : Int) (g : Nat) (tag : String)
    (payload : List (String × JsonVal)) (g' : Nat) (h : g' ∈ dh.initialized_guilds_ids) :
    g' ∈ (DataHandler.append_guild_metadata dh ts g tag payload).initialized_guilds_ids := by
  unfold DataHandler.append_guild_metadata
  simpa using (ensure_init_mem_iff dh g g').mpr (Or.inr h)

theorem log_event_creates_header (dh : DHState) (mi : Nat) (mn : String) (ts : Int)
    (g : Nat) (gn : String) (ci : Nat) (cn : String) (et : String)
    (hWF : g ∈ dh.initialized_guilds_ids → FilesReady dh g)
    (hnone : dh.eventLog g = none) :
    (DataHandler.log_event dh mi mn ts g gn ci cn et).eventLog g
      = some [EventLine.header, EventLine.record ⟨mi, mn, ts, g, gn, ci, cn, et⟩] := by
  have hnm : g ∉ dh.initialized_guilds_ids := by
    intro hm
    have h2 := (hWF hm).2.1
    rw [hnone] at h2
    simp at h2
  unfold DataHandler.log_event DataHandler.ensure_guild_files_exist
  simp [hnm, hnone, fset_same]

theorem log_session_creates_header (dh : DHState) (mi : Nat) (mn : String) (ts du : Int)
    (g : Nat) (gn : String) (ci : Nat) (cn : String) (sty : String)
    (hWF : g ∈ dh.initialized_guilds_ids → FilesReady dh g)
    (hnone : dh.sessionLog g = none) :
    (DataHandler.log_session dh mi mn ts du g gn ci cn sty).sessionLog g
      = some [SessionLine.header, SessionLine.record ⟨mi, mn, ts, du, g, gn, ci, cn, sty⟩] := by
  have hnm : g ∉ dh.initialized_guilds_ids := by
    intro hm
    have h2 := (hWF hm).2.2.1
    rw [hnone] at h2
    simp at h2
  unfold DataHandler.log_session DataHandler.ensure_guild_files_exist
  simp [hnm, hnone, fset_same]

theorem on_vsu_join_eq (st : BotState) (member : Member) (ca : VoiceChannel) (t : Int) :
    RecapBot.on_voice_state_update st member none (some ca) t
      = ⟨dictInsert st.currently_tracked_connections (member.id, member.guild.id)
           ⟨member.name, t, member.guild.name, ca.name, ca.id⟩,
         DataHandler.log_event st.data_handler member.id member.name t member.guild.id
           member.guild.name ca.id ca.name EventType.JOIN.value⟩ := by
  unfold RecapBot.on_voice_state_update RecapBot.handle_voice_join
  simp [chanEq]

theorem on_vsu_leave_found (st : BotState) (member : Member) (cb : VoiceChannel) (t : Int)
    (conn : Connection)
    (h : dictLookup st.currently_tracked_connections (member.id, member.guild.id) = some conn) :
    RecapBot.on_voice_state_update st member (some cb) none t
      = ⟨dictErase st.currently_tracked_connections (member.id, member.guild.id),
         DataHandler.log_session
           (DataHandler.log_event st.data_handler member.id member.name t member.guild.id
             member.guild.name cb.id cb.name EventType.LEAVE.value)
           member.id conn.member_name conn.timestamp (t - conn.timestamp) member.guild.id
           conn.guild_name conn.channel_id conn.channel_name SessionType.COMPLETE.value⟩ := by
  unfold RecapBot.on_voice_state_update RecapBot.handle_voice_leave
  simp [chanEq, h]

theorem on_vsu_leave_notfound (st : BotState) (member : Member) (cb : VoiceChannel)
    (t : Int)
    (h : dictLookup st.currently_tracked_connections (member.id, member.guild.id) = none) :
    RecapBot.on_voice_state_update st member (some cb) none t
      = ⟨st.currently_tracked_connections,
         DataHandler.log_session
           (DataHandler.log_event st.data_handler member.id member.name t member.guild.id
             member.guild.name cb.id cb.name EventType.LEAVE.value)
           member.id member.name (-1) 0 member.guild.id member.guild.name cb.id cb.name
           SessionType.CORRUPTED.value⟩ := by
  unfold RecapBot.on_voice_state_update RecapBot.handle_voice_leave
  simp [chanEq, h]

theorem on_vsu_switch_found (st : BotState) (member : Member) (cb ca : VoiceChannel)
    (t : Int) (conn : Connection)
    (h : dictLookup st.currently_tracked_connections (member.id, member.guild.id) = some conn)
    (hne : cb.id ≠ ca.id) :
    RecapBot.on_voice_state_update st member (some cb) (some ca) t
      = ⟨dictInsert (dictErase st.currently_tracked_connections (member.id, member.guild.id))
           (member.id, member.guild.id) ⟨member.name, t, member.guild.name, ca.name, ca.id⟩,
         DataHandler.log_session
           (DataHandler.log_event
             (DataHandler.log_event st.data_handler member.id member.name t member.guild.id
               member.guild.name cb.id cb.name EventType.LEAVE.value)
             member.id member.name t member.guild.id member.guild.name ca.id ca.name
             EventType.JOIN.value)
           member.id conn.member_name conn.timestamp (t - conn.timestamp) member.guild.id
           conn.guild_name conn.channel_id conn.channel_name SessionType.COMPLETE.value⟩ := by
  unfold RecapBot.on_voice_state_update RecapBot.handle_voice_leave RecapBot.handle_voice_join
  simp [chanEq, h, hne]

theorem step_lookup_ne (st : BotState) (u : VSUpdate) (k : TrackKey)
    (h : u.key ≠ k) :
    dictLookup (step st u).currently_tracked_connections k
      = dictLookup st.currently_tracked_connections k := by
  have h' : k ≠ (u.member.id, u.member.guild.id) := fun hc => h (by
    simp [VSUpdate.key, hc])
  unfold step RecapBot.on_voice_state_update
  by_cases hc : chanEq u.before u.after = true
  · simp [hc]
  · cases hb : u.before with
    | none =>
        cases ha : u.after with
        | none => simp [chanEq]
        | some ca =>
            unfold RecapBot.handle_voice_join
            simp [chanEq, dictLookup_insert_ne _ _ _ _ h']
    | some cb =>
        cases ha : u.after with
        | none =>
            unfold RecapBot.handle_voice_leave
            cases hl : dictLookup st.currently_tracked_connections
                (u.member.id, u.member.guild.id) with
            | none => simp [chanEq, hl]
            | some conn => simp [chanEq, hl, dictLookup_erase_ne _ _ _ h']
        | some ca =>
            rw [hb, ha] at hc
            unfold RecapBot.handle_voice_leave RecapBot.handle_voice_join
            cases hl : dictLookup st.currently_tracked_connections
                (u.member.id, u.member.guild.id) with
            | none => simp [hc, hl, dictLookup_insert_ne _ _ _ _ h']
            | some conn =>
                simp [hc, hl, dictLookup_insert_ne _ _ _ _ h',
                  dictLookup_erase_ne _ _ _ h']

theorem runUpdates_lookup_ne (us : List VSUpdate) (st : BotState) (k : TrackKey)
    (h : ∀ u ∈ us, u.key ≠ k) :
    dictLookup (runUpdates st us).currently_tracked_connections k
      = dictLookup st.currently_tracked_connections k := by
  induction us generalizing st with
  | nil => rfl
  | cons u rest ih =>
      have h1 : runUpdates st (u :: rest) = runUpdates (step st u) rest := by
        simp [runUpdates]
      rw [h1, ih (step st u) (fun v hv => h v (List.mem_cons_of_mem u hv)),
        step_lookup_ne st u k (h u (List.mem_cons_self u rest))]

theorem step_countKey_le (st : BotState) (u : VSUpdate) (k : TrackKey)
    (h : countKey st.currently_tracked_connections k ≤ 1) :
    countKey (step st u).currently_tracked_connections k ≤ 1 := by
  unfold step RecapBot.on_voice_state_update
  by_cases hc : chanEq u.before u.after = true
  · simp [hc, h]
  · cases hb : u.before with
    | none =>
        cases ha : u.after with
        | none => simp [chanEq, h]
        | some ca =>
            unfold RecapBot.handle_voice_join
            by_cases hk : k = (u.member.id, u.member.guild.id)
            · subst hk; simp [chanEq, countKey_insert_self]
            · simp [chanEq, countKey_insert_ne _ _ _ _ hk, h]
    | some cb =>
        cases ha : u.after with
        | none =>
            unfold RecapBot.handle_voice_leave
            cases hl : dictLookup st.currently_tracked_connections
                (u.member.id, u.member.guild.id) with
            | none => simp [chanEq, hl, h]
            | some conn =>
                simp only [chanEq, hl]
                simp only [Bool.false_eq_true, if_false]
                exact le_trans (countKey_erase_le _ _ _) h
        | some ca =>
            rw [hb, ha] at hc
            unfold RecapBot.handle_voice_leave RecapBot.handle_voice_join
            cases hl : dictLookup st.currently_tracked_connections
                (u.member.id, u.member.guild.id) with
            | none =>
                by_cases hk : k = (u.member.id, u.member.guild.id)
                · subst hk; simp [hc, hl, countKey_insert_self]
                · simp [hc, hl, countKey_insert_ne _ _ _ _ hk, h]
            | some conn =>
                by_cases hk : k = (u.member.id, u.member.guild.id)
                · subst hk; simp [hc, hl, countKey_insert_self]
                · simp [hc, hl, countKey_insert_ne _ _ _ _ hk,
                    countKey_erase_ne _ _ _ hk, h]

theorem guildCall_apply_journal (dh : DHState) (c : GuildCall) :
    journalOf (GuildCall.apply dh c) (GuildCall.guild c)
      = journalOf dh (GuildCall.guild c) ++ [GuildCall.specEnvelope c] := by
  cases c <;>
    simp [GuildCall.apply, GuildCall.guild, GuildCall.specEnvelope,
      DataHandler.log_guild_channel_add, DataHandler.log_guild_channel_remove,
      DataHandler.log_guild_channel_rename, DataHandler.log_guild_member_join,
      DataHandler.log_guild_member_remove, DataHandler.log_guild_rename,
      DataHandler.log_guild_bot_join, journalOf_append_guild_metadata,
      json_schema_version, GuildEvent.value]

theorem applyCalls_journal_length (cs : List GuildCall) (dh : DHState) (g : Nat)
    (hcs : ∀ c' ∈ cs, GuildCall.guild c' = g) :
    (journalOf (applyCalls dh cs) g).length = (journalOf dh g).length + cs.length := by
  induction cs generalizing dh with
  | nil => simp [applyCalls]
  | cons c' rest ih =>
      have hg : GuildCall.guild c' = g := hcs c' (List.mem_cons_self c' rest)
      have h1 : applyCalls dh (c' :: rest) = applyCalls (GuildCall.apply dh c') rest := by
        simp [applyCalls]
      have h2 := guildCall_apply_journal dh c'
      rw [hg] at h2
      rw [h1, ih (GuildCall.apply dh c') (fun d hd => hcs d (List.mem_cons_of_mem c' hd)), h2]
      simp [List.length_append]
      omega

theorem foldl_ensure_WF (gs : List Guild) (dh : DHState) (h : dhWF dh) :
    dhWF (gs.foldl
      (fun dh guild => (DataHandler.ensure_guild_files_exist dh guild.id).1) dh) := by
  induction gs generalizing dh with
  | nil => exact h
  | cons g rest ih => simpa using ih _ (ensure_WF dh g.id h)

theorem foldl_ensure_init_mono (gs : List Guild) (dh : DHState) (g' : Nat)
    (h : g' ∈ dh.initialized_guilds_ids) :
    g' ∈ (gs.foldl
      (fun dh guild => (DataHandler.ensure_guild_files_exist dh guild.id).1)
      dh).initialized_guilds_ids := by
  induction gs generalizing dh with
  | nil => exact h
  | cons g rest ih =>
      simpa using ih _ ((ensure_init_mem_iff dh g.id g').mpr (Or.inr h))

theorem foldl_ensure_mem (gs : List Guild) (dh : DHState) (g : Guild) (hg : g ∈ gs) :
    g.id ∈ (gs.foldl
      (fun dh guild => (DataHandler.ensure_guild_files_exist dh guild.id).1)
      dh).initialized_guilds_ids := by
  induction gs generalizing dh with
  | nil => cases hg
  | cons hd rest ih =>
      rcases List.mem_cons.mp hg with rfl | hmem
      · simpa using foldl_ensure_init_mono rest _ g.id (ensure_mem_initialized dh g.id)
      · simpa using ih _ hmem

theorem append_guild_metadata_creates (dh : DHState) (ts : Int) (g : Nat) (tag : String)
    (payload : List (String × JsonVal))
    (hWF : g ∈ dh.initialized_guilds_ids → FilesReady dh g)
    (hnone : dh.guildEvents g = none) :
    (DataHandler.append_guild_metadata dh ts g tag payload).guildEvents g
      = some [⟨json_schema_version, ts, tag, g, payload⟩] := by
  have hnm : g ∉ dh.initialized_guilds_ids := by
    intro hm
    have h2 := (hWF hm).2.2.2.1
    rw [hnone] at h2
    simp at h2
  unfold DataHandler.append_guild_metadata DataHandler.ensure_guild_files_exist
  simp [hnm, hnone, fset_same]

/-- C7: a voice-state transition whose old channel equals its new channel
(`before.channel == after.channel`, e.g. a mute/deaf-only change) is a
deterministic no-op: the returned state — event log, session log and
tracking dict included — is the input state, and the handler is total, so
no error is raised. -/
theorem same_channel_transition_noop (st : BotState) (member : Member)
    (before after : Option VoiceChannel) (t : Int) (h : chanEq before after = true) :
    RecapBot.on_voice_state_update st member before after t = st := by
  unfold RecapBot.on_voice_state_update
  simp [h]

/-- Witness for C7 at a concrete mute/deaf-style update. -/
theorem same_channel_transition_noop_witness :
    chanEq (some chanA) (some chanA) = true ∧
      RecapBot.on_voice_state_update bot0 memberM (some chanA) (some chanA) 5 = bot0 :=
  ⟨by decide, same_channel_transition_noop bot0 memberM (some chanA) (some chanA) 5 (by decide)⟩

/-- C10: a channel-update notification with unchanged name but a different
category id reaches the call
`self.data_handler.log_guild_channel_category_change(...)`, a method the
`DataHandler` class never defines, so Python raises `AttributeError` there
(modelled as the `some` error component) and the state — all durable logs
included — is returned exactly as it was: no `GuildMetadataEvent` is
appended for a pure recategorization. -/
theorem category_change_raises (st : BotState) (before after : GuildChannel) (t : Int)
    (hname : before.name = after.name) (hcat : before.category_id ≠ after.category_id) :
    RecapBot.on_guild_channel_update st before after t
      = (st, some "AttributeError: DataHandler object has no attribute log_guild_channel_category_change") := by
  unfold RecapBot.on_guild_channel_update
  simp [hname, hcat]

/-- Witness for C10: recategorizing `chanX` to `chanY` (same name, category
5 → 6) fails with the modelled `AttributeError` and leaves the state
untouched. -/
theorem category_change_raises_witness :
    (chanX.name = chanY.name ∧ chanX.category_id ≠ chanY.category_id) ∧
      RecapBot.on_guild_channel_update bot0 chanX chanY 9
        = (bot0, some "AttributeError: DataHandler object has no attribute log_guild_channel_category_change") :=
  ⟨⟨by decide, by decide⟩, category_change_raises bot0 chanX chanY 9 (by decide) (by decide)⟩

/-- C2: a leave transition whose `(member_id, guild_id)` key has no stored
connection entry still writes exactly one `SessionRecord`, with
`start_time = -1`, `duration = 0`, `session_type = corrupted`, and the
member/guild/channel identity of the live leave event; the handler is
total (the outcome is recorded, not raised). -/
theorem corrupted_leave_record (st : BotState) (member : Member) (ch : VoiceChannel)
    (t : Int)
    (h : dictLookup st.currently_tracked_connections (member.id, member.guild.id) = none) :
    sessionsOf (RecapBot.on_voice_state_update st member (some ch) none t) member.guild.id
      = sessionsOf st member.guild.id
        ++ [⟨member.id, member.name, -1, 0, member.guild.id, member.guild.name, ch.id,
             ch.name, SessionType.CORRUPTED.value⟩] := by
  rw [on_vsu_leave_notfound st member ch t h]
  simp [sessionsOf, dhSessions_log_session, dhSessions_log_event]

/-- Witness for C2: a leave with no prior join on a fresh bot. -/
theorem corrupted_leave_record_witness :
    dictLookup bot0.currently_tracked_connections (memberM.id, memberM.guild.id) = none ∧
      sessionsOf (RecapBot.on_voice_state_update bot0 memberM (some chanA) none 7)
          memberM.guild.id
        = sessionsOf bot0 memberM.guild.id
          ++ [⟨memberM.id, memberM.name, -1, 0, memberM.guild.id, memberM.guild.name,
               chanA.id, chanA.name, SessionType.CORRUPTED.value⟩] :=
  ⟨by decide, corrupted_leave_record bot0 memberM chanA 7 (by decide)⟩

/-- C4: calling `ensure_guild_files_exist` N times (N ≥ 1) for the same
guild yields exactly the state of calling it once; from the second call on
the call is a memoized no-op returning the state unchanged with 0
filesystem probes; and any file already present (any guild, any of the
four kinds) keeps its content unchanged — never truncated or rewritten,
so no header is ever duplicated. -/
theorem ensure_idempotent (dh : DHState) (g : Nat) (N : Nat) (hN : 1 ≤ N) :
    ensureIter dh g N = ensureIter dh g 1
    ∧ DataHandler.ensure_guild_files_exist (ensureIter dh g 1) g = (ensureIter dh g 1, 0)
    ∧ (∀ g' l, dh.eventLog g' = some l → (ensureIter dh g 1).eventLog g' = some l)
    ∧ (∀ g' l, dh.sessionLog g' = some l → (ensureIter dh g 1).sessionLog g' = some l)
    ∧ (∀ g' l, dh.guildEvents g' = some l → (ensureIter dh g 1).guildEvents g' = some l)
    ∧ (∀ g' l, dh.snapshot g' = some l → (ensureIter dh g 1).snapshot g' = some l) := by
  have h2 : DataHandler.ensure_guild_files_exist (ensureIter dh g 1) g
      = (ensureIter dh g 1, 0) := by
    apply ensure_of_mem
    show g ∈ (ensureIter dh g 1).initialized_guilds_ids
    simpa [ensureIter] using ensure_mem_initialized dh g
  have key : ∀ n, ensureIter dh g (n + 1) = ensureIter dh g 1 := by
    intro n
    induction n with
    | zero => rfl
    | succ m ihm =>
        show (DataHandler.ensure_guild_files_exist (ensureIter dh g (m + 1)) g).1 = _
        rw [ihm, h2]
  obtain ⟨n, rfl⟩ : ∃ n, N = n + 1 := ⟨N - 1, by omega⟩
  refine ⟨key n, h2, ?_, ?_, ?_, ?_⟩
  · intro g' l hl
    simpa [ensureIter] using ensure_eventLog_some dh g g' l hl
  · intro g' l hl
    simpa [ensureIter] using ensure_sessionLog_some dh g g' l hl
  · intro g' l hl
    simpa [ensureIter] using ensure_guildEvents_some dh g g' l hl
  · intro g' l hl
    simpa [ensureIter] using ensure_snapshot_some dh g g' l hl

/-- Witness for C4: three calls on a fresh handler equal one call, the
second call performs no probe, and a pre-existing file keeps its content. -/
theorem ensure_idempotent_witness :
    (1 ≤ 3 ∧
      ensureIter dh0 10 3 = ensureIter dh0 10 1
      ∧ DataHandler.ensure_guild_files_exist (ensureIter dh0 10 1) 10
          = (ensureIter dh0 10 1, 0)) ∧
    (∀ g' l, dh0.eventLog g' = some l → (ensureIter dh0 10 1).eventLog g' = some l) :=
  ⟨⟨by decide, (ensure_idempotent dh0 10 3 (by decide)).1,
    (ensure_idempotent dh0 10 3 (by decide)).2.1⟩,
   (ensure_idempotent dh0 10 3 (by decide)).2.2.1⟩

/-- C5: every recorder call (`channel add/remove/rename`, `member
join/remove`, `guild rename`, `bot guild-join`) appends exactly one line
to its guild's metadata journal — the envelope with `schema_version`
equal to the constant 1, the supplied timestamp, the kind's `guild_event`
tag, the guild id and the kind-specific payload map, as transcribed from
the spec into `GuildCall.specEnvelope` — and after K calls for one guild
the journal holds K lines more than before. -/
theorem recorder_appends_one_envelope (dh : DHState) (c : GuildCall)
    (cs : List GuildCall) (g : Nat) (hcs : ∀ c' ∈ cs, GuildCall.guild c' = g) :
    journalOf (GuildCall.apply dh c) (GuildCall.guild c)
      = journalOf dh (GuildCall.guild c) ++ [GuildCall.specEnvelope c]
    ∧ (GuildCall.specEnvelope c).schema_version = 1
    ∧ (GuildCall.specEnvelope c).timestamp = GuildCall.ts c
    ∧ (GuildCall.specEnvelope c).guild_id = GuildCall.guild c
    ∧ (journalOf (applyCalls dh cs) g).length = (journalOf dh g).length + cs.length := by
  refine ⟨guildCall_apply_journal dh c, ?_, ?_, ?_, applyCalls_journal_length cs dh g hcs⟩
  · cases c <;> rfl
  · cases c <;> rfl
  · cases c <;> rfl

/-- Witness for C5: a bot-join call appends its envelope, and two calls for
guild 10 grow the journal by two lines. -/
theorem recorder_appends_one_envelope_witness :
    (∀ c' ∈ [GuildCall.member_join 3 10 1 "M", GuildCall.guild_rename 4 10 "a" "b"],
        GuildCall.guild c' = 10) ∧
    journalOf (GuildCall.apply dh0 (GuildCall.bot_join 2 10 "GuildA")) 10
      = journalOf dh0 10 ++ [GuildCall.specEnvelope (GuildCall.bot_join 2 10 "GuildA")]
    ∧ (journalOf (applyCalls dh0
          [GuildCall.member_join 3 10 1 "M", GuildCall.guild_rename 4 10 "a" "b"]) 10).length
        = (journalOf dh0 10).length + 2 :=
  ⟨by decide,
   (recorder_appends_one_envelope dh0 (GuildCall.bot_join 2 10 "GuildA")
      [GuildCall.member_join 3 10 1 "M", GuildCall.guild_rename 4 10 "a" "b"] 10
      (by decide)).1,
   (recorder_appends_one_envelope dh0 (GuildCall.bot_join 2 10 "GuildA")
      [GuildCall.member_join 3 10 1 "M", GuildCall.guild_rename 4 10 "a" "b"] 10
      (by decide)).2.2.2.2⟩

/-- C8: each durable write — `log_event`, `log_session`, and the metadata
append — first runs the idempotent `ensure_guild_files_exist` for its
guild, so after the write the guild's full file set exists and the guild
is memoized; in particular, when the target file did not exist before the
call, it now starts with its fixed header (or, for the journal, is created
empty) followed by exactly the written line — the bootstrap happened
before the append.  The hypothesis is the handler invariant that memoized
guilds have their files. -/
theorem writes_bootstrap_file_set (dh : DHState) (g mi ci : Nat) (mn gn cn : String)
    (ts du : Int) (et sty tag : String) (payload : List (String × JsonVal))
    (hWF : g ∈ dh.initialized_guilds_ids → FilesReady dh g) :
    (FilesReady (DataHandler.log_event dh mi mn ts g gn ci cn et) g
      ∧ g ∈ (DataHandler.log_event dh mi mn ts g gn ci cn et).initialized_guilds_ids
      ∧ (dh.eventLog g = none →
          (DataHandler.log_event dh mi mn ts g gn ci cn et).eventLog g
            = some [EventLine.header,
                EventLine.record ⟨mi, mn, ts, g, gn, ci, cn, et⟩]))
    ∧ (FilesReady (DataHandler.log_session dh mi mn ts du g gn ci cn sty) g
      ∧ g ∈ (DataHandler.log_session dh mi mn ts du g gn ci cn sty).initialized_guilds_ids
      ∧ (dh.sessionLog g = none →
          (DataHandler.log_session dh mi mn ts du g gn ci cn sty).sessionLog g
            = some [SessionLine.header,
                SessionLine.record ⟨mi, mn, ts, du, g, gn, ci, cn, sty⟩]))
    ∧ (FilesReady (DataHandler.append_guild_metadata dh ts g tag payload) g
      ∧ g ∈ (DataHandler.append_guild_metadata dh ts g tag payload).initialized_guilds_ids
      ∧ (dh.guildEvents g = none →
          (DataHandler.append_guild_metadata dh ts g tag payload).guildEvents g
            = some [⟨json_schema_version, ts, tag, g, payload⟩])) := by
  refine ⟨⟨filesReady_log_event dh mi mn ts g gn ci cn et hWF,
      log_event_mem_init dh mi mn ts g gn ci cn et,
      fun hn => log_event_creates_header dh mi mn ts g gn ci cn et hWF hn⟩,
    ⟨filesReady_log_session dh mi mn ts du g gn ci cn sty hWF,
      log_session_mem_init dh mi mn ts du g gn ci cn sty,
      fun hn => log_session_creates_header dh mi mn ts du g gn ci cn sty hWF hn⟩,
    ⟨filesReady_append_guild_metadata dh ts g tag payload hWF,
      append_guild_metadata_mem_init dh ts g tag payload,
      fun hn => append_guild_metadata_creates dh ts g tag payload hWF hn⟩⟩

/-- Witness for C8 on a fresh handler (no file exists yet): the event log
is created with its header before the line is appended. -/
theorem writes_bootstrap_file_set_witness :
    ((10 ∈ dh0.initialized_guilds_ids → FilesReady dh0 10) ∧ dh0.eventLog 10 = none) ∧
      (FilesReady (DataHandler.log_event dh0 1 "M" 5 10 "GuildA" 100 "A" "join") 10
      ∧ (DataHandler.log_event dh0 1 "M" 5 10 "GuildA" 100 "A" "join").eventLog 10
          = some [EventLine.header,
              EventLine.record ⟨1, "M", 5, 10, "GuildA", 100, "A", "join"⟩]) :=
  ⟨⟨by decide, by decide⟩,
   ⟨(writes_bootstrap_file_set dh0 10 1 100 "M" "GuildA" "A" 5 0 "join" "complete" "t" []
       (by decide)).1.1,
    (writes_bootstrap_file_set dh0 10 1 100 "M" "GuildA" "A" 5 0 "join" "complete" "t" []
       (by decide)).1.2.2 (by decide)⟩⟩

/-- C9: `on_ready` ensures the file set of every guild the bot is in, and
`on_guild_join` ensures the newly joined guild's file set; every guild
already bootstrapped stays bootstrapped across the notification, so after
process start plus any joins, every known guild has its files before any
write targets it. -/
theorem router_bootstraps_guilds (st : BotState) (guilds : List Guild)
    (g newGuild : Guild) (t : Int) (hg : g ∈ guilds) (hWF : dhWF st.data_handler) :
    (g.id ∈ (RecapBot.on_ready st guilds).data_handler.initialized_guilds_ids
      ∧ FilesReady (RecapBot.on_ready st guilds).data_handler g.id)
    ∧ (newGuild.id ∈
        (RecapBot.on_guild_join st newGuild t).data_handler.initialized_guilds_ids
      ∧ FilesReady (RecapBot.on_guild_join st newGuild t).data_handler newGuild.id
      ∧ ∀ g' ∈ st.data_handler.initialized_guilds_ids,
          g' ∈ (RecapBot.on_guild_join st newGuild t).data_handler.initialized_guilds_ids
          ∧ FilesReady (RecapBot.on_guild_join st newGuild t).data_handler g') := by
  have hmem : g.id ∈ (RecapBot.on_ready st guilds).data_handler.initialized_guilds_ids := by
    unfold RecapBot.on_ready
    simpa using foldl_ensure_mem guilds st.data_handler g hg
  have hwf2 : dhWF (RecapBot.on_ready st guilds).data_handler := by
    unfold RecapBot.on_ready
    simpa using foldl_ensure_WF guilds st.data_handler hWF
  have hnew : FilesReady
      ((DataHandler.ensure_guild_files_exist st.data_handler newGuild.id).1) newGuild.id :=
    ensure_filesReady st.data_handler newGuild.id (fun hm => hWF newGuild.id hm)
  refine ⟨⟨hmem, hwf2 g.id hmem⟩, ?_, ?_, ?_⟩
  · unfold RecapBot.on_guild_join DataHandler.log_guild_bot_join
    simpa using append_guild_metadata_mem_init _ t newGuild.id _ _
  · unfold RecapBot.on_guild_join DataHandler.log_guild_bot_join
    simpa using filesReady_append_guild_metadata_mono _ t newGuild.id _ _ newGuild.id hnew
  · intro g' hg'
    constructor
    · unfold RecapBot.on_guild_join DataHandler.log_guild_bot_join
      simpa using append_guild_metadata_init_mono _ t newGuild.id _ _ g'
        ((ensure_init_mem_iff st.data_handler newGuild.id g').mpr (Or.inr hg'))
    · unfold RecapBot.on_guild_join DataHandler.log_guild_bot_join
      simpa using filesReady_append_guild_metadata_mono _ t newGuild.id _ _ g'
        (ensure_filesReady_mono st.data_handler newGuild.id g' (hWF g' hg'))

/-- Witness for C9 on a fresh bot with one known guild. -/
theorem router_bootstraps_guilds_witness :
    (guildA ∈ [guildA] ∧ dhWF bot0.data_handler) ∧
      (guildA.id ∈ (RecapBot.on_ready bot0 [guildA]).data_handler.initialized_guilds_ids
      ∧ FilesReady (RecapBot.on_guild_join bot0 ⟨20, "GuildB"⟩ 3).data_handler 20) :=
  ⟨⟨by decide, by decide⟩,
   ⟨(router_bootstraps_guilds bot0 [guildA] guildA ⟨20, "GuildB"⟩ 3 (by decide) (by decide)).1.1,
    (router_bootstraps_guilds bot0 [guildA] guildA ⟨20, "GuildB"⟩ 3 (by decide) (by decide)).2.2.1⟩⟩

/-- C6: the tracker holds at most one live connection per
`(member_id, guild_id)` key and every voice-state transition preserves
this bound; a join transition installs the new connection by overwriting
any stale entry for the key (afterwards the key maps to the new connection
and holds exactly one entry), and the overwrite is silent: no session
record — corrupted or otherwise — is written to any guild's session log
by a join. -/
theorem tracker_key_unique_and_silent_overwrite (st : BotState) (u : VSUpdate)
    (k : TrackKey) (member : Member) (ch : VoiceChannel) (t : Int)
    (h : countKey st.currently_tracked_connections k ≤ 1) :
    countKey (step st u).currently_tracked_connections k ≤ 1
    ∧ dictLookup
        (RecapBot.on_voice_state_update st member none (some ch) t).currently_tracked_connections
        (member.id, member.guild.id)
      = some ⟨member.name, t, member.guild.name, ch.name, ch.id⟩
    ∧ countKey
        (RecapBot.on_voice_state_update st member none (some ch) t).currently_tracked_connections
        (member.id, member.guild.id) = 1
    ∧ (∀ g', sessionsOf (RecapBot.on_voice_state_update st member none (some ch) t) g'
        = sessionsOf st g') := by
  refine ⟨step_countKey_le st u k h, ?_, ?_, ?_⟩
  · rw [on_vsu_join_eq]
    exact dictLookup_insert_self _ _ _
  · rw [on_vsu_join_eq]
    exact countKey_insert_self _ _ _
  · intro g'
    rw [on_vsu_join_eq]
    simp [sessionsOf, dhSessions_log_event]

/-- Witness for C6: a join over a stale entry for the same key replaces it
silently. -/
theorem tracker_key_unique_and_silent_overwrite_witness :
    countKey [((1, 10), Connection.mk "M" 1 "GuildA" "A" 100)] (1, 10) ≤ 1 ∧
      countKey (step ⟨[((1, 10), Connection.mk "M" 1 "GuildA" "A" 100)], dh0⟩
          ⟨memberM, none, some chanB, 6⟩).currently_tracked_connections (1, 10) ≤ 1
    ∧ dictLookup
        (RecapBot.on_voice_state_update ⟨[((1, 10), Connection.mk "M" 1 "GuildA" "A" 100)], dh0⟩
          memberM none (some chanB) 6).currently_tracked_connections
        (memberM.id, memberM.guild.id)
      = some ⟨memberM.name, 6, memberM.guild.name, chanB.name, chanB.id⟩ :=
  ⟨by decide,
   (tracker_key_unique_and_silent_overwrite ⟨[((1, 10), Connection.mk "M" 1 "GuildA" "A" 100)], dh0⟩
      ⟨memberM, none, some chanB, 6⟩ (1, 10) memberM chanB 6 (by decide)).1,
   (tracker_key_unique_and_silent_overwrite ⟨[((1, 10), Connection.mk "M" 1 "GuildA" "A" 100)], dh0⟩
      ⟨memberM, none, some chanB, 6⟩ (1, 10) memberM chanB 6 (by decide)).2.1⟩

/-- C3: a channel switch (`before` and `after` both non-none with distinct
ids) for a member whose key is tracked — with the stored entry bound to
the old channel — writes exactly two `EventRecord`s, LEAVE of the old then
JOIN of the new, both at the switch timestamp; exactly one complete
`SessionRecord` against the old channel; and leaves the tracker with
exactly one live connection for the key, bound to the new channel with
`start_time` equal to the switch timestamp (the close ran before the
open — otherwise the new entry would have been consumed by the close). -/
theorem channel_switch_behavior (st : BotState) (member : Member) (cb ca : VoiceChannel)
    (t : Int) (conn : Connection)
    (hlook : dictLookup st.currently_tracked_connections (member.id, member.guild.id)
      = some conn)
    (hcid : conn.channel_id = cb.id) (hcname : conn.channel_name = cb.name)
    (hne : cb.id ≠ ca.id) :
    eventsOf (RecapBot.on_voice_state_update st member (some cb) (some ca) t) member.guild.id
      = eventsOf st member.guild.id
        ++ [⟨member.id, member.name, t, member.guild.id, member.guild.name, cb.id, cb.name,
             EventType.LEAVE.value⟩,
            ⟨member.id, member.name, t, member.guild.id, member.guild.name, ca.id, ca.name,
             EventType.JOIN.value⟩]
    ∧ sessionsOf (RecapBot.on_voice_state_update st member (some cb) (some ca) t)
        member.guild.id
      = sessionsOf st member.guild.id
        ++ [⟨member.id, conn.member_name, conn.timestamp, t - conn.timestamp,
             member.guild.id, conn.guild_name, cb.id, cb.name, SessionType.COMPLETE.value⟩]
    ∧ dictLookup
        (RecapBot.on_voice_state_update st member (some cb) (some ca) t).currently_tracked_connections
        (member.id, member.guild.id)
      = some ⟨member.name, t, member.guild.name, ca.name, ca.id⟩
    ∧ countKey
        (RecapBot.on_voice_state_update st member (some cb) (some ca) t).currently_tracked_connections
        (member.id, member.guild.id) = 1 := by
  rw [on_vsu_switch_found st member cb ca t conn hlook hne]
  refine ⟨?_, ?_, ?_, ?_⟩
  · simp [eventsOf, dhEvents_log_session, dhEvents_log_event, List.append_assoc]
  · simp [sessionsOf, dhSessions_log_session, dhSessions_log_event, hcid, hcname]
  · exact dictLookup_insert_self _ _ _
  · exact countKey_insert_self _ _ _

/-- Witness for C3: member M, tracked in channel A since t = 1, switches to
channel B at t = 6. -/
theorem channel_switch_behavior_witness :
    (dictLookup [((1, 10), Connection.mk "M" 1 "GuildA" "A" 100)] (memberM.id, memberM.guild.id)
        = some (Connection.mk "M" 1 "GuildA" "A" 100)
      ∧ (Connection.mk "M" 1 "GuildA" "A" 100).channel_id = chanA.id
      ∧ (Connection.mk "M" 1 "GuildA" "A" 100).channel_name = chanA.name
      ∧ chanA.id ≠ chanB.id) ∧
    sessionsOf (RecapBot.on_voice_state_update
        ⟨[((1, 10), Connection.mk "M" 1 "GuildA" "A" 100)], dh0⟩ memberM (some chanA)
        (some chanB) 6) memberM.guild.id
      = sessionsOf (⟨[((1, 10), Connection.mk "M" 1 "GuildA" "A" 100)], dh0⟩ : BotState)
          memberM.guild.id
        ++ [⟨memberM.id, "M", 1, 5, memberM.guild.id, "GuildA", 100, "A",
             SessionType.COMPLETE.value⟩] :=
  ⟨⟨by decide, by decide, by decide, by decide⟩,
   (channel_switch_behavior ⟨[((1, 10), Connection.mk "M" 1 "GuildA" "A" 100)], dh0⟩
      memberM chanA chanB 6 (Connection.mk "M" 1 "GuildA" "A" 100) (by decide) (by decide)
      (by decide) (by decide)).2.1⟩

/-- C1 counterexample: member M joins channel A at t1 = 1, joins again at
t = 2 (a second raw join — not a leave — which overwrites the stored
entry), and leaves at t2 = 5.  The pair (join@1, leave@5) has no
intervening leave for the key, yet the single `SessionRecord` written on
the leave has `duration = 3 ≠ t2 - t1 = 4`: the claim as stated fails. -/
theorem c1_intervening_join_counterexample :
    sessionsOf
        (RecapBot.on_voice_state_update
          (RecapBot.on_voice_state_update
            (RecapBot.on_voice_state_update bot0 memberM none (some chanA) 1)
            memberM none (some chanA) 2)
          memberM (some chanA) none 5) guildA.id
      = [⟨1, "M", 2, 3, 10, "GuildA", 100, "A", SessionType.COMPLETE.value⟩]
    ∧ (3 : Int) ≠ 5 - 1 := by
  constructor
  · decide
  · decide

/-- C1 (amended): for a join at t1 followed by a leave at t2 on the same
`(member_id, guild_id)` key with no intervening voice-state transition for
that key (in particular no second join, which would overwrite the stored
entry — the counterexample above shows excluding only leaves is not
enough), the leave writes exactly one `SessionRecord` with
`duration = t2 - t1`, `session_type = complete`, and the member/guild/
channel names captured at join time from the stored entry — not the
member object or channel passed with the leave, which may differ. -/
theorem complete_session_matches_join (st : BotState) (member leaver : Member)
    (ch leaveCh : VoiceChannel) (t1 t2 : Int) (mid : List VSUpdate)
    (hid : leaver.id = member.id) (hgid : leaver.guild.id = member.guild.id)
    (hmid : ∀ u ∈ mid, u.key ≠ (member.id, member.guild.id)) :
    sessionsOf
        (RecapBot.on_voice_state_update
          (runUpdates (RecapBot.on_voice_state_update st member none (some ch) t1) mid)
          leaver (some leaveCh) none t2) member.guild.id
      = sessionsOf
          (runUpdates (RecapBot.on_voice_state_update st member none (some ch) t1) mid)
          member.guild.id
        ++ [⟨member.id, member.name, t1, t2 - t1, member.guild.id, member.guild.name,
             ch.id, ch.name, SessionType.COMPLETE.value⟩] := by
  have hl1 : dictLookup
      (RecapBot.on_voice_state_update st member none (some ch) t1).currently_tracked_connections
      (member.id, member.guild.id)
      = some ⟨member.name, t1, member.guild.name, ch.name, ch.id⟩ := by
    rw [on_vsu_join_eq]
    exact dictLookup_insert_self _ _ _
  have hl2 : dictLookup
      (runUpdates (RecapBot.on_voice_state_update st member none (some ch) t1)
        mid).currently_tracked_connections (leaver.id, leaver.guild.id)
      = some ⟨member.name, t1, member.guild.name, ch.name, ch.id⟩ := by
    rw [hid, hgid, runUpdates_lookup_ne mid _ _ hmid]
    exact hl1
  rw [on_vsu_leave_found _ leaver leaveCh t2 _ hl2]
  simp only [sessionsOf, hid, hgid]
  rw [dhSessions_log_session, dhSessions_log_event]

/-- Witness for C1 (amended): join into A at t1 = 1, leave at t2 = 5 with
the leave event carrying a different channel object (B); the record still
shows channel A and duration 4. -/
theorem complete_session_matches_join_witness :
    (memberM.id = memberM.id ∧ memberM.guild.id = memberM.guild.id
      ∧ (∀ u ∈ ([] : List VSUpdate), u.key ≠ (memberM.id, memberM.guild.id))) ∧
    sessionsOf
        (RecapBot.on_voice_state_update
          (runUpdates (RecapBot.on_voice_state_update bot0 memberM none (some chanA) 1) [])
          memberM (some chanB) none 5) memberM.guild.id
      = sessionsOf
          (runUpdates (RecapBot.on_voice_state_update bot0 memberM none (some chanA) 1) [])
          memberM.guild.id
        ++ [⟨memberM.id, memberM.name, 1, 5 - 1, memberM.guild.id, memberM.guild.name,
             chanA.id, chanA.name, SessionType.COMPLETE.value⟩] :=
  ⟨⟨rfl, rfl, by simp⟩,
   complete_session_matches_join bot0 memberM memberM chanA chanB 1 5 [] rfl rfl (by simp)⟩
